import Mathlib

/-!
Verification of the MercuryiPS driver (src/mercuryiPS.py) against its
natural-language specification.

The development is a shallow embedding of the driver:
* the three reply parsers (`_preparser`, `_singleunit_parser`, `_rate_parser`
  in the source) become `parse_status`, `parse_magnitude`, `parse_rate`
  (Lean forbids names ending in the source's suffix, so the spec's names
  for the same functions are used); Python `str.split`, slicing and
  `float(...)` are modelled character-by-character below;
* the instrument is modelled as a `Device`: oracles giving the raw reply
  string for the n-th read of each quantity; executing a driver method
  yields a result, the ordered list of transport commands issued, and the
  list of sleeps performed, so that command-sequence claims are statements
  about the produced trace;
* the unbounded `while` loop of `set_field_and_ramp_blocking` is embedded
  with explicit fuel; exhausting the fuel yields the artificial result
  `Err.outOfFuel`, which no theorem below relies on;
* Python floats are modelled as rationals (all protocol values are short
  decimal literals, where float semantics and rational semantics agree).
-/

/-- Model of Python `s.split(sep)` on a list of characters: splitting the
empty string yields `[[]]` (Python: `''.split(':') == ['']`), and each
occurrence of the separator starts a new segment. -/
def pySplit (sep : Char) : List Char → List (List Char)
  | [] => [[]]
  | c :: cs =>
    if c = sep then [] :: pySplit sep cs
    else
      match pySplit sep cs with
      | [] => [[c]]
      | h :: t => (c :: h) :: t

theorem pySplit_ne_nil (sep : Char) (l : List Char) : pySplit sep l ≠ [] := by
  cases l with
  | nil => simp [pySplit]
  | cons c cs =>
    simp only [pySplit]
    split
    · simp
    · split <;> simp

theorem pySplit_of_not_mem (sep : Char) (l : List Char) (h : sep ∉ l) :
    pySplit sep l = [l] := by
  induction l with
  | nil => rfl
  | cons c cs ih =>
    simp only [List.mem_cons, not_or] at h
    simp only [pySplit]
    rw [if_neg (fun hc => h.1 hc.symm), ih h.2]

theorem pySplit_length_of_mem (sep : Char) (l : List Char) (h : sep ∈ l) :
    2 ≤ (pySplit sep l).length := by
  induction l with
  | nil => cases h
  | cons c cs ih =>
    simp only [pySplit]
    by_cases hc : c = sep
    · rw [if_pos hc]
      have := pySplit_ne_nil sep cs
      cases hcs : pySplit sep cs with
      | nil => exact absurd hcs this
      | cons a b => simp
    · rw [if_neg hc]
      have hmem : sep ∈ cs := by
        rcases List.mem_cons.mp h with h1 | h2
        · exact absurd h1.symm hc
        · exact h2
      have h2 := ih hmem
      cases hcs : pySplit sep cs with
      | nil => exact absurd hcs (pySplit_ne_nil sep cs)
      | cons a b =>
        rw [hcs] at h2
        simp only [List.length_cons] at h2 ⊢
        omega

/-- Modelled from the spec's words for `parse_status` — "split on the field
delimiter, return the last segment verbatim": the suffix of the input after
the final occurrence of the delimiter (the whole input when the delimiter
does not occur). Used to state the refinement theorem for claim C9 against
the source-derived `parse_status`. -/
def lastSegment (sep : Char) : List Char → List Char
  | [] => []
  | c :: cs =>
    if c = sep then lastSegment sep cs
    else if sep ∈ cs then lastSegment sep cs
    else c :: cs

theorem getLast?_pySplit (sep : Char) (l : List Char) :
    (pySplit sep l).getLast? = some (lastSegment sep l) := by
  induction l with
  | nil => rfl
  | cons c cs ih =>
    simp only [pySplit, lastSegment]
    by_cases hc : c = sep
    · rw [if_pos hc, if_pos hc]
      cases hcs : pySplit sep cs with
      | nil => exact absurd hcs (pySplit_ne_nil sep cs)
      | cons a b =>
        rw [hcs] at ih
        rw [List.getLast?_cons_cons]
        exact ih
    · rw [if_neg hc, if_neg hc]
      cases hcs : pySplit sep cs with
      | nil => exact absurd hcs (pySplit_ne_nil sep cs)
      | cons a b =>
        rw [hcs] at ih
        cases b with
        | nil =>
          have hnm : sep ∉ cs := by
            intro hmem
            have := pySplit_length_of_mem sep cs hmem
            rw [hcs] at this
            simp at this
          have hcs2 : pySplit sep cs = [cs] := pySplit_of_not_mem sep cs hnm
          rw [hcs] at hcs2
          have ha : a = cs := by
            injection hcs2 with h1 _
          rw [if_neg hnm]
          simp [ha]
        | cons b1 b2 =>
          have hmem : sep ∈ cs := by
            by_contra hnm
            have := pySplit_of_not_mem sep cs hnm
            rw [hcs] at this
            injection this with _ h2
            cases h2
          rw [if_pos hmem]
          rw [List.getLast?_cons_cons]
          simp only [List.getLast?_cons_cons] at ih
          exact ih

/-- Numeric value of a digit string (used by the model of Python `float`). -/
def digitsVal (ds : List Char) : ℕ :=
  ds.foldl (fun a c => 10 * a + (c.toNat - 48)) 0

/-- Model of Python `float(s)` on the decimal-literal grammar the Mercury
protocol uses: optional sign, then digits with at most one decimal point and
at least one digit. Inputs outside this grammar (empty remainder, stray unit
characters, several points) fail, as `float` raises `ValueError` there.
Exponents, `inf`/`nan` and surrounding whitespace — which Python `float`
also accepts but which never occur in the replies this driver parses — are
not modelled. The value of an accepted literal with integer part `i` and
`k`-digit fractional part `f` is the exact rational `(i*10^k + f) / 10^k`,
built with `mkRat` so that the definition evaluates by kernel reduction. -/
def pyFloat? (s : List Char) : Option ℚ :=
  let core : List Char → Option ℚ := fun r =>
    match pySplit '.' r with
    | [ip] =>
      if ip ≠ [] ∧ ip.all Char.isDigit then some (mkRat (digitsVal ip) 1) else none
    | [ip, fp] =>
      if (ip ≠ [] ∨ fp ≠ []) ∧ ip.all Char.isDigit ∧ fp.all Char.isDigit then
        some (mkRat (digitsVal ip * 10 ^ fp.length + digitsVal fp) (10 ^ fp.length))
      else none
    | _ => none
  match s with
  | '-' :: r => (core r).map (fun q => -q)
  | '+' :: r => core r
  | r => core r

/-- Model of the Python slice `l[:-n]`: everything but the last `n`
characters (empty when the input has at most `n` characters). -/
def pySliceToNeg (n : ℕ) (l : List Char) : List Char :=
  l.take (l.length - n)

/-- Embeds `_preparser` (src line 136-137): `bare_resp.split(':')[-1]`.
The result is an `Option` so that a (hypothetical) failing indexing would be
`none`; the theorems below show it never is. -/
def parse_status (s : String) : Option String :=
  ((pySplit ':' s.data).getLast?).map String.mk

/-- Embeds `_singleunit_parser` (src line 139-140):
`float(value.split(':')[-1][:-1])`. `none` models a raised `ValueError`. -/
def parse_magnitude (s : String) : Option ℚ :=
  ((pySplit ':' s.data).getLast?).bind (fun seg => pyFloat? (pySliceToNeg 1 seg))

/-- Embeds `_rate_parser` (src line 142-143):
`float(value.split(':')[-1][:-3])`. `none` models a raised `ValueError`. -/
def parse_rate (s : String) : Option ℚ :=
  ((pySplit ':' s.data).getLast?).bind (fun seg => pyFloat? (pySliceToNeg 3 seg))

/-!
Trace model of the instrument methods.

A `Device` is the environment seen through the transport: for each readable
quantity, an oracle giving the raw reply string returned by the n-th read
command for that quantity (reads of distinct quantities are counted
separately; the echo replies to write commands are discarded by the source
and are not modelled). Executing a driver method produces its result, the
ordered list of transport commands it issued, and the list of sleep
durations (in seconds) it performed.
-/

/-- Transport commands issued by the driver, abstracted from the literal
command strings of src lines 39-132: one constructor per distinct command,
carrying the transmitted value. `writeRampStatus` carries the wire token
(for example the token `RTOS` for the label `TO SET`), as produced by the
`val_mapping` of src lines 109-112. -/
inductive Cmd
  | readSwitchHeater
  | readField
  | readTemp
  | readRampStatus
  | writeFieldTarget (v : ℚ)
  | writeRampStatus (w : String)
  | writeSwitchHeater (v : String)
deriving DecidableEq

/-- Errors raised by the modelled driver code.

* `typeErrorRaiseNone` models src line 159, `raise print('...')`: `print`
  returns `None`, so after printing the message Python raises
  `TypeError('exceptions must derive from BaseException')` — not a
  structured heater-off error.
* `temperatureExceeded` models the `ValueError` of src lines 167-170 and
  carries the two values interpolated into its message: the configured
  limit and the temperature reading interpolated by the f-string.
* `parseError` models a `ValueError` escaping from `float(...)` in a get
  parser; `invalidEnum` models the lookup failure of the qcodes
  `val_mapping` on an unmapped token or label; `zeroDivision` models the
  `ZeroDivisionError` of src line 175; `validationError` models the qcodes
  validator rejection and carries the declared range.
* `outOfFuel` is an artifact of bounding the source's unbounded `while`
  loop with fuel; no theorem below depends on it. -/
inductive Err
  | typeErrorRaiseNone
  | parseError
  | invalidEnum
  | temperatureExceeded (limit reached : ℚ)
  | zeroDivision
  | validationError (lo hi : ℚ)
  | outOfFuel
deriving DecidableEq

/-- Reply oracles of the instrument: field `swht` gives the raw reply to
the n-th `READ:...:SIG:SWHT` command, `fld` to the n-th `READ:...:SIG:FLD`,
`tmp` to the n-th `READ:...:TEMP:SIG:TEMP`, `actn` to the n-th
`READ:...:ACTN`. -/
structure Device where
  swht : ℕ → String
  fld : ℕ → String
  tmp : ℕ → String
  actn : ℕ → String

/-- Wire token → label direction of the `val_mapping` of src lines 109-112,
applied by the qcodes machinery on every `ramp_status` get; an unmapped
token fails (spec section 4.2). -/
def wireToLabel (w : String) : Option String :=
  if w = ("HOLD") then some ("HOLD")
  else if w = ("RTOS") then some ("TO SET")
  else if w = ("CLMP") then some ("CLAMP")
  else if w = ("RTOZ") then some ("TO ZERO")
  else none

/-- Label → wire token direction of the `val_mapping` of src lines 109-112,
applied on every `ramp_status` set; an unmapped label fails
(spec section 4.2). -/
def labelToWire (l : String) : Option String :=
  if l = ("HOLD") then some ("HOLD")
  else if l = ("TO SET") then some ("RTOS")
  else if l = ("CLAMP") then some ("CLMP")
  else if l = ("TO ZERO") then some ("RTOZ")
  else none

/-- Get of the `switch_heater` parameter (src lines 127-132): the raw reply
passed through `_preparser`; `parse_status` never actually fails, so the
error branch is unreachable. -/
def getSwitchHeater (d : Device) (i : ℕ) : Except Err String :=
  match parse_status (d.swht i) with
  | none => Except.error Err.parseError
  | some h => Except.ok h

/-- Get of the `field` parameter (src lines 83-89): the raw reply passed
through `_singleunit_parser`; a failed `float(...)` is a raised
`ValueError`. -/
def getField (d : Device) (i : ℕ) : Except Err ℚ :=
  match parse_magnitude (d.fld i) with
  | none => Except.error Err.parseError
  | some q => Except.ok q

/-- Get of the `temp` parameter (src lines 114-119): the raw reply passed
through `_singleunit_parser`. -/
def getTemp (d : Device) (i : ℕ) : Except Err ℚ :=
  match parse_magnitude (d.tmp i) with
  | none => Except.error Err.parseError
  | some q => Except.ok q

/-- Get of the `ramp_status` parameter (src lines 104-112): the raw reply
passed through `_preparser`, then through the inverse `val_mapping`. -/
def getRampStatus (d : Device) (i : ℕ) : Except Err String :=
  match parse_status (d.actn i) with
  | none => Except.error Err.parseError
  | some w =>
    match wireToLabel w with
    | none => Except.error Err.invalidEnum
    | some l => Except.ok l

/-- Set of the `ramp_status` parameter (src line 108): the label is mapped
to its wire token by `val_mapping` and the resulting `SET:...:ACTN:<token>`
command is sent; returns the command issued. -/
def setRampStatus (l : String) : Except Err Cmd :=
  match labelToWire l with
  | none => Except.error Err.invalidEnum
  | some w => Except.ok (Cmd.writeRampStatus w)

/-- Embeds `ramp_to_target` (src lines 181-188): read `ramp_status`; if it
is `CLAMP`, write `ramp_status = HOLD`; then write `ramp_status = TO SET`
unconditionally. `r` is the index of the next unconsumed `ramp_status`
read; exactly one read is consumed. -/
def ramp_to_target (d : Device) (r : ℕ) : Except Err Unit × List Cmd :=
  match getRampStatus d r with
  | Except.error e => (Except.error e, [Cmd.readRampStatus])
  | Except.ok st =>
    if st = ("CLAMP") then
      match setRampStatus ("HOLD") with
      | Except.error e => (Except.error e, [Cmd.readRampStatus])
      | Except.ok c1 =>
        match setRampStatus ("TO SET") with
        | Except.error e => (Except.error e, [Cmd.readRampStatus, c1])
        | Except.ok c2 => (Except.ok (), [Cmd.readRampStatus, c1, c2])
    else
      match setRampStatus ("TO SET") with
      | Except.error e => (Except.error e, [Cmd.readRampStatus])
      | Except.ok c2 => (Except.ok (), [Cmd.readRampStatus, c2])

/-- Embeds `_print_field_status` (src lines 174-179) up to the progress
fraction it computes: `abs((start - current) / (start - stop))`, or `none`
for the `ZeroDivisionError` Python raises exactly when the divisor
`start - stop` is zero — which for rationals (as for the finite floats of
this protocol) is exactly `start = stop`. The printed string is advisory
output and is not modelled beyond definedness. -/
def field_status_fraction (start current stop : ℚ) : Option ℚ :=
  if start = stop then none else some |(start - current) / (start - stop)|

/-- Sleep executed by each loop iteration, src line 171: `time.sleep(0.1)`
seconds. -/
def sleepInterval : ℚ := mkRat 1 10

/-- Outcome of one iteration of the `while` loop of
`set_field_and_ramp_blocking`: the device has left `TO SET` (loop exits,
ramp completed), the iteration finished and the loop repeats, or an
exception was raised. -/
inductive StepRes
  | exit
  | proceed
  | fail (e : Err)
deriving DecidableEq

/-- One iteration of the loop of src lines 164-172, starting at read
indices `r`, `t`, `f` for `ramp_status`, `temp` and `field`:
read `ramp_status` (loop condition); if it is not `TO SET`, exit.
Otherwise read `temp` and compare with the limit (`temp_limit` is the
local attribute `t_limit`, src lines 145-149 — reading it issues no
command); on excess, write `ramp_status = HOLD`, then evaluate the
f-string of the `ValueError` message, which reads `temp` a second time;
otherwise sleep 0.1 s, read `field` and compute the progress fraction. -/
def rampStep (d : Device) (tlim start tgt : ℚ) (r t f : ℕ) :
    StepRes × List Cmd × List ℚ :=
  match getRampStatus d r with
  | Except.error e => (StepRes.fail e, [Cmd.readRampStatus], [])
  | Except.ok st =>
    if st = ("TO SET") then
      match getTemp d t with
      | Except.error e => (StepRes.fail e, [Cmd.readRampStatus, Cmd.readTemp], [])
      | Except.ok tv =>
        if tv > tlim then
          match setRampStatus ("HOLD") with
          | Except.error e =>
            (StepRes.fail e, [Cmd.readRampStatus, Cmd.readTemp], [])
          | Except.ok c1 =>
            match getTemp d (t + 1) with
            | Except.error e =>
              (StepRes.fail e,
               [Cmd.readRampStatus, Cmd.readTemp, c1, Cmd.readTemp], [])
            | Except.ok tv2 =>
              (StepRes.fail (Err.temperatureExceeded tlim tv2),
               [Cmd.readRampStatus, Cmd.readTemp, c1, Cmd.readTemp], [])
        else
          match getField d f with
          | Except.error e =>
            (StepRes.fail e,
             [Cmd.readRampStatus, Cmd.readTemp, Cmd.readField], [sleepInterval])
          | Except.ok cur =>
            match field_status_fraction start cur tgt with
            | none =>
              (StepRes.fail Err.zeroDivision,
               [Cmd.readRampStatus, Cmd.readTemp, Cmd.readField], [sleepInterval])
            | some _ =>
              (StepRes.proceed,
               [Cmd.readRampStatus, Cmd.readTemp, Cmd.readField], [sleepInterval])
    else (StepRes.exit, [Cmd.readRampStatus], [])

/-- The loop of src lines 164-172, iterated with explicit fuel: reaching
fuel 0 yields the artificial `Err.outOfFuel`. -/
def rampLoop (d : Device) (tlim start tgt : ℚ) :
    ℕ → ℕ → ℕ → ℕ → Except Err Unit × List Cmd × List ℚ
  | 0, _, _, _ => (Except.error Err.outOfFuel, [], [])
  | Nat.succ fuel, r, t, f =>
    match rampStep d tlim start tgt r t f with
    | (StepRes.exit, cs, ss) => (Except.ok (), cs, ss)
    | (StepRes.fail e, cs, ss) => (Except.error e, cs, ss)
    | (StepRes.proceed, cs, ss) =>
      let rest := rampLoop d tlim start tgt fuel (r + 1) (t + 1) (f + 1)
      (rest.1, cs ++ rest.2.1, ss ++ rest.2.2)

/-- Embeds `set_field_and_ramp_blocking` (src lines 156-172): read the
switch heater and abort (via `raise print(...)`) if it reads `OFF`; read
the field into `start`; write the field target; run `ramp_to_target`; then
run the supervised polling loop. `tlim` is the instrument attribute
`t_limit`; `fuel` bounds the loop. A normal return (`Except.ok ()`) is the
`Completed` terminal state of the spec. -/
def set_field_and_ramp_blocking (fuel : ℕ) (d : Device) (tlim : ℚ)
    (target : ℚ) : Except Err Unit × List Cmd × List ℚ :=
  match getSwitchHeater d 0 with
  | Except.error e => (Except.error e, [Cmd.readSwitchHeater], [])
  | Except.ok hs =>
    if hs = ("OFF") then
      (Except.error Err.typeErrorRaiseNone, [Cmd.readSwitchHeater], [])
    else
      match getField d 0 with
      | Except.error e => (Except.error e, [Cmd.readSwitchHeater, Cmd.readField], [])
      | Except.ok start =>
        let rtt := ramp_to_target d 0
        match rtt.1 with
        | Except.error e =>
          (Except.error e,
           Cmd.readSwitchHeater :: Cmd.readField :: Cmd.writeFieldTarget target :: rtt.2,
           [])
        | Except.ok _ =>
          let lp := rampLoop d tlim start target fuel 1 0 1
          (lp.1,
           Cmd.readSwitchHeater :: Cmd.readField :: Cmd.writeFieldTarget target ::
             (rtt.2 ++ lp.2.1),
           lp.2.2)

/-- Embeds `switch_heater_on_and_wait` (src lines 151-154): read the
switch heater; only when it reads `OFF`, write `ON` to it and sleep
`60*10` seconds. -/
def switch_heater_on_and_wait (d : Device) : Except Err Unit × List Cmd × List ℚ :=
  match getSwitchHeater d 0 with
  | Except.error e => (Except.error e, [Cmd.readSwitchHeater], [])
  | Except.ok hs =>
    if hs = ("OFF") then
      (Except.ok (), [Cmd.readSwitchHeater, Cmd.writeSwitchHeater ("ON")], [mkRat 600 1])
    else (Except.ok (), [Cmd.readSwitchHeater], [])

/-- Modelled from the spec: the qcodes `Parameter.set` machinery that runs
the `vals=Numbers(min_value=-7.0, max_value=7.0)` validator declared at src
line 89 is not part of this repository; per spec section 4.2,
domain-constrained writes are rejected with a `ValidationError` carrying
the allowed range before any command is sent. The range constants are the
ones declared in the source; an in-range write runs the
`set_cmd = set_field_and_ramp_blocking` of src line 88. -/
def field_write (fuel : ℕ) (d : Device) (tlim v : ℚ) :
    Except Err Unit × List Cmd × List ℚ :=
  if -7 ≤ v ∧ v ≤ 7 then set_field_and_ramp_blocking fuel d tlim v
  else (Except.error (Err.validationError (-7) 7), [], [])

/-!
Concrete device scripts used by the scenario theorems, the witnesses and
the counterexamples, and the claim theorems themselves.
-/

/-- Device script for the C1 scenario: heater reads ON, field starts at
0.0 T, `ramp_status` reads CLAMP once and then TO SET (wire `RTOS`) twice
before leaving ramp mode, magnet temperature stays at 3.0 K. -/
def dev1 : Device :=
  Device.mk
    (fun _ => "STAT:DEV:GRPZ:PSU:SIG:SWHT:ON")
    (fun n => match n with
      | 0 => "STAT:DEV:GRPZ:PSU:SIG:FLD:0.0000T"
      | 1 => "STAT:DEV:GRPZ:PSU:SIG:FLD:0.4000T"
      | _ => "STAT:DEV:GRPZ:PSU:SIG:FLD:0.8000T")
    (fun _ => "STAT:DEV:MB1.T1:TEMP:SIG:TEMP:3.0000K")
    (fun n => match n with
      | 0 => "STAT:DEV:GRPZ:PSU:ACTN:CLMP"
      | 1 => "STAT:DEV:GRPZ:PSU:ACTN:RTOS"
      | 2 => "STAT:DEV:GRPZ:PSU:ACTN:RTOS"
      | _ => "STAT:DEV:GRPZ:PSU:ACTN:HOLD")

/-- Device script for the C2 counterexample: the first temperature read
returns 10.0 K (tripping a 5.0 K limit), the second returns 3.0 K. -/
def dev2 : Device :=
  Device.mk
    (fun _ => "STAT:DEV:GRPZ:PSU:SIG:SWHT:ON")
    (fun _ => "STAT:DEV:GRPZ:PSU:SIG:FLD:0.0000T")
    (fun n => match n with
      | 0 => "STAT:DEV:MB1.T1:TEMP:SIG:TEMP:10.0000K"
      | _ => "STAT:DEV:MB1.T1:TEMP:SIG:TEMP:3.0000K")
    (fun n => match n with
      | 0 => "STAT:DEV:GRPZ:PSU:ACTN:HOLD"
      | _ => "STAT:DEV:GRPZ:PSU:ACTN:RTOS")

/-- Device script for the C3 counterexample: the field already reads
1.0 T (equal to the requested target) and the temperature reads exactly
the 5.0 K limit. -/
def dev3 : Device :=
  Device.mk
    (fun _ => "STAT:DEV:GRPZ:PSU:SIG:SWHT:ON")
    (fun _ => "STAT:DEV:GRPZ:PSU:SIG:FLD:1.0000T")
    (fun _ => "STAT:DEV:MB1.T1:TEMP:SIG:TEMP:5.0000K")
    (fun n => match n with
      | 0 => "STAT:DEV:GRPZ:PSU:ACTN:HOLD"
      | _ => "STAT:DEV:GRPZ:PSU:ACTN:RTOS")

/-- Device script whose switch heater reads OFF. -/
def dev4 : Device :=
  Device.mk
    (fun _ => "STAT:DEV:GRPZ:PSU:SIG:SWHT:OFF")
    (fun _ => "STAT:DEV:GRPZ:PSU:SIG:FLD:0.0000T")
    (fun _ => "STAT:DEV:MB1.T1:TEMP:SIG:TEMP:3.0000K")
    (fun _ => "STAT:DEV:GRPZ:PSU:ACTN:HOLD")

/-- Claim C1: with heater ON, field reading 0.0, target 1.0 and initial
ramp_status CLAMP, `set_field_and_ramp_blocking` issues exactly the command
sequence read heater, read field, write field_target=1.0, read ramp_status,
write ramp_status=HOLD, write ramp_status=TO SET (wire token `RTOS`), then
per loop iteration read ramp_status, read temp, read field, until
ramp_status is no longer TO SET, and terminates normally (`Except.ok ()`,
the Completed state). -/
theorem C1_ramp_scenario :
    set_field_and_ramp_blocking 5 dev1 5 1 =
      (Except.ok (),
       [Cmd.readSwitchHeater, Cmd.readField, Cmd.writeFieldTarget 1,
        Cmd.readRampStatus, Cmd.writeRampStatus ("HOLD"), Cmd.writeRampStatus ("RTOS"),
        Cmd.readRampStatus, Cmd.readTemp, Cmd.readField,
        Cmd.readRampStatus, Cmd.readTemp, Cmd.readField,
        Cmd.readRampStatus],
       [sleepInterval, sleepInterval]) := rfl

/-- Claim C2, counterexample to the claim as stated: on `dev2` the
interlock trips on the reading 10 (limit 5), but the raised error embeds
3 — the value of the second, post-HOLD temperature read — and not the
reached value 10 that tripped it. -/
theorem C2_counterexample :
    set_field_and_ramp_blocking 5 dev2 5 1 =
      (Except.error (Err.temperatureExceeded 5 3),
       [Cmd.readSwitchHeater, Cmd.readField, Cmd.writeFieldTarget 1,
        Cmd.readRampStatus, Cmd.writeRampStatus ("RTOS"),
        Cmd.readRampStatus, Cmd.readTemp, Cmd.writeRampStatus ("HOLD"), Cmd.readTemp],
       []) ∧
    getTemp dev2 0 = Except.ok 10 ∧ (3 : ℚ) ≠ 10 :=
  ⟨rfl, rfl, by norm_num⟩

/-- Claim C2 as amended: when a loop iteration reads ramp_status TO SET and
a temperature above the limit, it writes ramp_status=HOLD before raising,
the raised error embeds the configured limit and the temperature value
re-read from the device after the HOLD write (equal to the tripping
reading only when the temperature is unchanged between the two reads), and
the loop executes no further iteration: for every remaining fuel the whole
loop ends with exactly this iteration's four commands. -/
theorem C2_trip_step (d : Device) (tlim start tgt : ℚ) (r t f : ℕ) (tv tv2 : ℚ)
    (h1 : getRampStatus d r = Except.ok ("TO SET"))
    (h2 : getTemp d t = Except.ok tv)
    (h3 : tv > tlim)
    (h4 : getTemp d (t + 1) = Except.ok tv2) :
    ∀ fuel, rampLoop d tlim start tgt (fuel + 1) r t f =
      (Except.error (Err.temperatureExceeded tlim tv2),
       [Cmd.readRampStatus, Cmd.readTemp, Cmd.writeRampStatus ("HOLD"), Cmd.readTemp],
       []) := by
  intro fuel
  have hstep : rampStep d tlim start tgt r t f =
      (StepRes.fail (Err.temperatureExceeded tlim tv2),
       [Cmd.readRampStatus, Cmd.readTemp, Cmd.writeRampStatus ("HOLD"), Cmd.readTemp],
       []) := by
    unfold rampStep
    rw [h1, h2]
    simp [setRampStatus, labelToWire, h3, h4]
  show rampLoop d tlim start tgt (Nat.succ fuel) r t f = _
  rw [rampLoop, hstep]

/-- Witness for C2_trip_step at the concrete device `dev2`. -/
theorem C2_witness :
    rampLoop dev2 5 0 1 3 1 0 1 =
      (Except.error (Err.temperatureExceeded 5 3),
       [Cmd.readRampStatus, Cmd.readTemp, Cmd.writeRampStatus ("HOLD"), Cmd.readTemp],
       []) :=
  C2_trip_step dev2 5 0 1 1 0 1 10 3 rfl rfl (by norm_num) rfl 2

/-- Claim C3, counterexample to the claim as stated: on `dev3` a poll
iteration reads a temperature exactly equal to the limit (5 = 5), yet the
ramp does not continue — the iteration ends in an error (the
`ZeroDivisionError` of the progress report, since the start field equals
the target), refuting "for every poll iteration where temp equals the
limit, the ramp continues (no HOLD write and no error)". -/
theorem C3_counterexample :
    set_field_and_ramp_blocking 5 dev3 5 1 =
      (Except.error Err.zeroDivision,
       [Cmd.readSwitchHeater, Cmd.readField, Cmd.writeFieldTarget 1,
        Cmd.readRampStatus, Cmd.writeRampStatus ("RTOS"),
        Cmd.readRampStatus, Cmd.readTemp, Cmd.readField],
       [sleepInterval]) ∧
    getTemp dev3 0 = Except.ok 5 :=
  ⟨rfl, rfl⟩

/-- Claim C3 as amended: the temperature interlock trips exactly on a
reading strictly greater than the limit. In an iteration whose reading is
less than or equal to the limit (equality included), no HOLD is written
and no TemperatureExceeded error is raised — the iteration proceeds to the
progress report, which can itself fail for another reason (division by
zero when start = target, or a parse error). In an iteration whose reading
exceeds the limit, it trips: HOLD is written and the iteration fails. -/
theorem C3_interlock_strict (d : Device) (tlim start tgt : ℚ) (r t f : ℕ) (tv : ℚ)
    (h1 : getRampStatus d r = Except.ok ("TO SET"))
    (h2 : getTemp d t = Except.ok tv) :
    (tv ≤ tlim →
      Cmd.writeRampStatus ("HOLD") ∉ (rampStep d tlim start tgt r t f).2.1 ∧
      ∀ l x, (rampStep d tlim start tgt r t f).1 ≠ StepRes.fail (Err.temperatureExceeded l x)) ∧
    (tv > tlim →
      ∃ e, (rampStep d tlim start tgt r t f).1 = StepRes.fail e ∧
        (rampStep d tlim start tgt r t f).2.1 =
          [Cmd.readRampStatus, Cmd.readTemp, Cmd.writeRampStatus ("HOLD"), Cmd.readTemp]) := by
  constructor
  · intro hle
    have hnot : ¬ tv > tlim := not_lt.mpr hle
    unfold rampStep
    rw [h1, h2]
    simp only [if_pos rfl]
    rw [if_neg hnot]
    unfold getField
    cases hp : parse_magnitude (d.fld f) with
    | none =>
      simp only [hp]
      exact ⟨by decide, fun l x => by simp⟩
    | some cur =>
      simp only [hp]
      cases hfr : field_status_fraction start cur tgt with
      | none =>
        simp only [hfr]
        exact ⟨by decide, fun l x => by simp⟩
      | some q =>
        simp only [hfr]
        exact ⟨by decide, fun l x => by simp⟩
  · intro hgt
    unfold rampStep
    rw [h1, h2]
    simp only [if_pos rfl]
    rw [if_pos hgt]
    simp [setRampStatus, labelToWire]
    cases h4 : getTemp d (t + 1) with
    | error e => simp
    | ok tv2 => simp

/-- Witness for C3_interlock_strict at the concrete device `dev3`, whose
temperature reading equals the limit. -/
theorem C3_witness :
    Cmd.writeRampStatus ("HOLD") ∉ (rampStep dev3 5 1 1 1 0 1).2.1 ∧
    ∀ l x, (rampStep dev3 5 1 1 1 0 1).1 ≠ StepRes.fail (Err.temperatureExceeded l x) :=
  (C3_interlock_strict dev3 5 1 1 1 0 1 5 rfl rfl).1 (le_refl 5)

/-- Claim C4: with the switch heater reading OFF, for every target the
supervised ramp aborts immediately after the single heater read — no ramp
starts and no ramp_status (or any other) command is issued. The failure,
however, is `raise print(...)` (src line 159): the message is printed and
Python raises `TypeError` because `print` returns `None` — not the
structured HeaterOff error the claim and spec require (the spec itself
flags this idiom as a bug in section 9). -/
theorem C4_heater_off :
    ∀ (fuel : ℕ) (tlim tgt : ℚ),
      set_field_and_ramp_blocking fuel dev4 tlim tgt =
        (Except.error Err.typeErrorRaiseNone, [Cmd.readSwitchHeater], []) :=
  fun _ _ _ => rfl

/-- Claim C5, counterexample to the claim as stated: the last segment
`1.25Am` is a decimal number followed by a 2-character unit suffix, but
`parse_rate` drops three characters and returns 1.2 (= `mkRat 6 5`), not
1.25 (= `mkRat 5 4`). -/
theorem C5_counterexample :
    parse_rate ("STAT:DEV:GRPZ:PSU:SIG:RCST:1.25Am") = some (mkRat 6 5) ∧
    (mkRat 6 5 : ℚ) ≠ mkRat 5 4 :=
  ⟨rfl, by decide⟩

/-- Claim C5 as amended: for all valid replies whose last colon-delimited
segment is a decimal number followed by a three-character rate unit suffix
(such as `A/m`, the convention of section 4.1 of the spec), `parse_rate`
returns that number parsed as a float. -/
theorem C5_rate_three_char_suffix (s : String) (num suff : List Char) (q : ℚ)
    (h1 : (pySplit ':' s.data).getLast? = some (num ++ suff))
    (h2 : suff.length = 3)
    (h3 : pyFloat? num = some q) :
    parse_rate s = some q := by
  unfold parse_rate
  rw [h1]
  have hsl : pySliceToNeg 3 (num ++ suff) = num := by
    unfold pySliceToNeg
    rw [List.length_append, h2, Nat.add_sub_cancel]
    exact List.take_left num suff
  simp [hsl, h3]

/-- Witness for C5_rate_three_char_suffix at the spec's own example reply,
whose rate 0.0500 (unit `A/m`) parses to 0.05 = `mkRat 1 20`. -/
theorem C5_witness :
    parse_rate ("STAT:DEV:GRPZ:PSU:SIG:RCST:0.0500A/m") = some (mkRat 1 20) :=
  C5_rate_three_char_suffix ("STAT:DEV:GRPZ:PSU:SIG:RCST:0.0500A/m")
    ("0.0500".data) ("A/m".data) (mkRat 1 20) rfl rfl rfl

/-- Claim C6: for every value outside [-7, 7], writing the field quantity
fails with the ValidationError carrying the declared range, and the
command trace (and sleep list) is empty — nothing is sent through the
transport. The validator run is modelled from the spec (see
`field_write`). -/
theorem C6_field_validation (fuel : ℕ) (d : Device) (tlim v : ℚ)
    (h : v < -7 ∨ 7 < v) :
    field_write fuel d tlim v = (Except.error (Err.validationError (-7) 7), [], []) := by
  unfold field_write
  rw [if_neg]
  rintro ⟨hl, hr⟩
  rcases h with h | h
  · exact absurd hl (not_le.mpr h)
  · exact absurd hr (not_le.mpr h)

/-- Witness for C6_field_validation at the spec's example value 8.0. -/
theorem C6_witness :
    field_write 1 dev1 5 8 = (Except.error (Err.validationError (-7) 7), [], []) :=
  C6_field_validation 1 dev1 5 8 (Or.inr (by norm_num))

/-- Claim C7: for all valid replies whose last colon-delimited segment is
a decimal number followed by a single unit character, `parse_magnitude`
returns that number parsed as a float. -/
theorem C7_magnitude (s : String) (num : List Char) (u : Char) (q : ℚ)
    (h1 : (pySplit ':' s.data).getLast? = some (num ++ [u]))
    (h2 : pyFloat? num = some q) :
    parse_magnitude s = some q := by
  unfold parse_magnitude
  rw [h1]
  have hsl : pySliceToNeg 1 (num ++ [u]) = num := by
    unfold pySliceToNeg
    rw [List.length_append, List.length_singleton, Nat.add_sub_cancel]
    exact List.take_left num [u]
  simp [hsl, h2]

/-- Witness for C7_magnitude at the spec's example reply, whose field
value 1.2500 (unit `T`) parses to 1.25 = `mkRat 5 4`. -/
theorem C7_witness :
    parse_magnitude ("READ:DEV:GRPZ:PSU:SIG:FLD:1.2500T") = some (mkRat 5 4) :=
  C7_magnitude ("READ:DEV:GRPZ:PSU:SIG:FLD:1.2500T") ("1.2500".data) 'T'
    (mkRat 5 4) rfl rfl

/-- Claim C8: the progress fraction |start - current| / |start - target|
is well-defined whenever start ≠ target, equals 1.0 whenever
current = target (and the fraction is defined, i.e. start ≠ target), and
is a division by zero (modelled as `none`) exactly when start = target. -/
theorem C8_progress_fraction (start current stop : ℚ) :
    (start ≠ stop → (field_status_fraction start current stop).isSome) ∧
    (current = stop → start ≠ stop →
      field_status_fraction start current stop = some 1) ∧
    (start = stop → field_status_fraction start current stop = none) := by
  refine ⟨?_, ?_, ?_⟩
  · intro h
    unfold field_status_fraction
    rw [if_neg h]
    rfl
  · intro hc h
    unfold field_status_fraction
    rw [if_neg h]
    subst hc
    rw [div_self (sub_ne_zero.mpr h), abs_one]
  · intro h
    unfold field_status_fraction
    rw [if_pos h]

/-- Witness for C8_progress_fraction: fraction 1 when the current field
equals the target, `none` when the start equals the target. -/
theorem C8_witness :
    field_status_fraction 0 1 1 = some 1 ∧ field_status_fraction 1 0 1 = none :=
  ⟨(C8_progress_fraction 0 1 1).2.1 rfl (by norm_num),
   (C8_progress_fraction 1 0 1).2.2 rfl⟩

/-- Claim C9, counterexample to the claim as stated: `parse_status` does
not fail on the empty string — Python's `''.split(':')` is `['']`, so the
result is the empty string, not an error. -/
theorem C9_counterexample :
    parse_status ("") = some ("") ∧ parse_status ("") ≠ none :=
  ⟨rfl, by decide⟩

/-- Claim C9 as amended: `parse_status` is total on every input (the empty
string included, where it returns the empty string) and returns the last
colon-delimited segment verbatim — the independently defined
`lastSegment`. -/
theorem C9_last_segment_total :
    ∀ s : String, parse_status s = some (String.mk (lastSegment ':' s.data)) := by
  intro s
  unfold parse_status
  rw [getLast?_pySplit]
  rfl

/-- Claim C10: when the switch heater reads anything other than OFF (in
particular ON), `switch_heater_on_and_wait` issues exactly one command —
the heater read — writes nothing and performs no wait; only when the
heater reads OFF does it write ON and sleep the fixed 600 s. -/
theorem C10_heater_idempotent (d : Device) (hs : String)
    (h : getSwitchHeater d 0 = Except.ok hs) :
    (hs ≠ ("OFF") →
      switch_heater_on_and_wait d = (Except.ok (), [Cmd.readSwitchHeater], [])) ∧
    (hs = ("OFF") →
      switch_heater_on_and_wait d =
        (Except.ok (), [Cmd.readSwitchHeater, Cmd.writeSwitchHeater ("ON")],
         [mkRat 600 1])) := by
  constructor
  · intro h2
    unfold switch_heater_on_and_wait
    rw [h]
    simp only []
    rw [if_neg h2]
  · intro h2
    unfold switch_heater_on_and_wait
    rw [h]
    simp only []
    rw [if_pos h2]

/-- Witness for C10_heater_idempotent at the heater-ON device `dev1` and
the heater-OFF device `dev4`. -/
theorem C10_witness :
    switch_heater_on_and_wait dev1 = (Except.ok (), [Cmd.readSwitchHeater], []) ∧
    switch_heater_on_and_wait dev4 =
      (Except.ok (), [Cmd.readSwitchHeater, Cmd.writeSwitchHeater ("ON")],
       [mkRat 600 1]) :=
  ⟨(C10_heater_idempotent dev1 ("ON") rfl).1 (by decide),
   (C10_heater_idempotent dev4 ("OFF") rfl).2 rfl⟩
